import Mathlib

/-!
Verification of the Songkick integration (songkick_integrations.py) against its
natural-language specification.  The Python code is shallowly embedded: each
method body is translated into a Lean function over explicit inputs (HTTP
status, raw body text, parsed HTML document, parsed JSON body), and Python
exceptions are modelled with `Except`.
-/

set_option maxRecDepth 4000

/-- Python substring test `pat in s`. -/
def strContains (s pat : String) : Bool :=
  s.data.tails.any (fun t => pat.data.isPrefixOf t)

/-- Splitting worker over character lists.  `fuel` bounds the recursion depth;
each step consumes at least one character, so `fuel = l.length` is enough.
`acc` holds the current chunk reversed. -/
def splitFuel (sep : List Char) : Nat → List Char → List Char → List (List Char)
  | 0, _, acc => [acc.reverse]
  | fuel + 1, l, acc =>
    match l with
    | [] => [acc.reverse]
    | c :: rest =>
      if sep.isPrefixOf l then acc.reverse :: splitFuel sep fuel (l.drop sep.length) []
      else splitFuel sep fuel rest (c :: acc)

/-- Python `s.split(sep)` for a non-empty separator. -/
def strSplitOn (s sep : String) : List String :=
  if sep.data.isEmpty then [s]
  else (splitFuel sep.data s.data.length s.data []).map String.mk

/-- Python `s.strip()`: drop leading and trailing whitespace. -/
def strTrim (s : String) : String :=
  String.mk (((s.data.dropWhile Char.isWhitespace).reverse.dropWhile
    Char.isWhitespace).reverse)

/-- Python `s.replace(a, b)` for a non-empty pattern `a`
(equal to `b.join(s.split(a))`). -/
def strReplace (s a b : String) : String :=
  String.intercalate b (strSplitOn s a)

/-- JSON values, as produced by `response.json()`. -/
inductive Json where
  | null
  | bool (b : Bool)
  | num (n : Int)
  | str (s : String)
  | arr (xs : List Json)
  | obj (fields : List (String × Json))
deriving Repr

/-- Lookup of a key in a JSON value when it is an object; `none` otherwise. -/
def jsonLookup (j : Json) (k : String) : Option Json :=
  match j with
  | .obj fs => (fs.find? (fun p => p.1 == k)).map Prod.snd
  | _ => none

mutual

/-- Python `repr` of a JSON-like value (used by `str` on non-string values).
Container rendering follows the Python `repr` format. -/
def pyRepr : Json → String
  | .null => "None"
  | .bool true => "True"
  | .bool false => "False"
  | .num n => toString n
  | .str s => "\x27" ++ s ++ "\x27"
  | .arr xs => "[" ++ pyReprArr xs ++ "]"
  | .obj fs => "\x7b" ++ pyReprObj fs ++ "\x7d"

/-- Comma-separated `repr` of the elements of a Python list. -/
def pyReprArr : List Json → String
  | [] => ""
  | [x] => pyRepr x
  | x :: y :: xs => pyRepr x ++ ", " ++ pyReprArr (y :: xs)

/-- Comma-separated `repr` of the entries of a Python dict. -/
def pyReprObj : List (String × Json) → String
  | [] => ""
  | [(k, v)] => "\x27" ++ k ++ "\x27: " ++ pyRepr v
  | (k, v) :: r :: fs => "\x27" ++ k ++ "\x27: " ++ pyRepr v ++ ", " ++ pyReprObj (r :: fs)

end

/-- Python `str` applied to a JSON-like value (as in the f-strings of the
classifier): a string stays itself, other values render via `repr`. -/
def pyStr : Json → String
  | .str s => s
  | j => pyRepr j

/-- Python `==` between a value and a string literal: true exactly when the
value is that string (values of other types never compare equal to a str). -/
def isStrEq (j : Json) (s : String) : Bool :=
  match j with
  | .str t => t == s
  | _ => false

/-- Python exceptions and the typed integration errors raised by the code. -/
inductive PyErr where
  /-- The `AttributeError`, e.g. `.get`/`.find` on `None` or on a non-dict. -/
  | attributeError
  /-- The `TypeError`, e.g. subscripting `None`. -/
  | typeError
  /-- The `KeyError`: missing attribute key on a tag subscript. -/
  | keyError
  /-- The `IndexError`: list index out of range. -/
  | indexError
  /-- The `requests.HTTPError` raised by `raise_for_status` (status in [400, 600)). -/
  | httpError (status : Nat)
  /-- The `fastapi.HTTPException(status_code, detail)`. -/
  | httpException (status : Nat) (detail : String)
  /-- The `IntegrationAuthError(message, status, code)`. -/
  | authError (message : String) (status : Nat) (code : Json)
  /-- The `IntegrationAPIError(integration_name, message, status, code)`. -/
  | apiError (name : String) (message : String) (status : Nat) (code : Json)
  /-- A network-level exception raised by the HTTP call itself. -/
  | networkError

/-- Python `d.get(k, default)`; raises `AttributeError` when the receiver is
not a dict (mirrors `response_json.get("error", {})` on non-object JSON). -/
def jget (j : Json) (k : String) (dflt : Json) : Except PyErr Json :=
  match j with
  | .obj fs => .ok (((fs.find? (fun p => p.1 == k)).map Prod.snd).getD dflt)
  | _ => .error .attributeError

/-- The body synthesized by `_handle_response` when `response.json()` raises:
`{"error": {"message": "Unknown error", "code": str(status)}}`. -/
def synthBody (status : Nat) : Json :=
  Json.obj [("error", Json.obj
    [("message", Json.str "Unknown error"), ("code", Json.str (toString status))])]

/-- The status-directed branch of `_handle_response` after the error message
and code have been extracted. -/
def classifyStatus (name : String) (status : Nat) (msg code : Json) : Except PyErr Json :=
  if status = 401 then
    .error (.authError (name ++ ": " ++ pyStr msg) status code)
  else if status = 400 then
    if isStrEq msg "Resource not found." then
      .error (.apiError name "Resource not found." status code)
    else
      .error (.apiError name ("Bad request: " ++ pyStr msg) status code)
  else if status = 500 then
    .error (.apiError name
      ("Downstream server error (translated to HTTP 501): " ++ pyStr msg) 501 code)
  else
    .error (.apiError name (pyStr msg ++ " (HTTP " ++ toString status ++ ")") status code)

/-- The `response_json` local of `_handle_response`: the decoded body when
decoding succeeded, the synthesized error record otherwise. -/
def pyBody (status : Nat) (body : Option Json) : Json :=
  body.getD (synthBody status)

/-- The `SongkickIntegration._handle_response`.  `body` is the outcome of
`await response.json()`: `some j` when the body decodes to `j`, `none` when
decoding raises (in which case the code synthesizes `synthBody status`). -/
def handleResponse (name : String) (status : Nat) (body : Option Json) : Except PyErr Json :=
  if 200 ≤ status ∧ status < 204 then .ok (pyBody status body)
  else
    match jget (pyBody status body) "error" (Json.obj []) with
    | .error e => .error e
    | .ok errv =>
      match jget errv "message" (Json.str "Unknown error") with
      | .error e => .error e
      | .ok msg =>
        match jget errv "code" (Json.str (toString status)) with
        | .error e => .error e
        | .ok code => classifyStatus name status msg code

/-! ### Parsed HTML model (BeautifulSoup) -/

mutual

/-- A parsed HTML node: an element with tag, attributes and children, or a
text node.  A whole document is an element whose children are the top-level
nodes. -/
inductive Node where
  | elem (tag : String) (attrs : List (String × String)) (children : NodeList)
  | text (s : String)

/-- A sibling list of HTML nodes (mutual with `Node` so that the tree
traversals are structurally recursive and computable by reduction). -/
inductive NodeList where
  | nil
  | cons (head : Node) (tail : NodeList)

end

/-- Builds a `NodeList` from a plain list. -/
def nlist : List Node → NodeList
  | [] => .nil
  | n :: ns => .cons n (nlist ns)

/-- Attribute lookup on a tag (`None` on text nodes / missing keys). -/
def Node.attrOf : Node → String → Option String
  | .elem _ attrs _, k => (attrs.find? (fun p => p.1 == k)).map Prod.snd
  | .text _, _ => none

/-- The whitespace-separated tokens of the class attribute. -/
def Node.classList (n : Node) : List String :=
  (strSplitOn ((n.attrOf "class").getD "") " ").filter (fun s => !(s == ""))

/-- BeautifulSoup `class_=q` filter: matches when `q` is one of the tag
classes, or (for multi-word queries) when the class attribute equals `q`
exactly. -/
def classFilter (q : String) (n : Node) : Bool :=
  n.classList.contains q || (n.attrOf "class" == some q)

/-- Whether the node is an element with the given tag name. -/
def Node.isTag (n : Node) (t : String) : Bool :=
  match n with
  | .elem tg _ _ => tg == t
  | .text _ => false

mutual

/-- All nodes of a subtree in document (preorder) order, each paired with its
ancestor list (nearest first), starting from a given ancestor context. -/
def nodeEntries : Node → List Node → List (Node × List Node)
  | .text s, anc => [(.text s, anc)]
  | .elem t a cs, anc => (.elem t a cs, anc) :: childEntries cs (.elem t a cs :: anc)

/-- The map of `nodeEntries` over a list of sibling subtrees. -/
def childEntries : NodeList → List Node → List (Node × List Node)
  | .nil, _ => []
  | .cons c cs, anc => nodeEntries c anc ++ childEntries cs anc

end

mutual

/-- The concatenated text of a subtree (BeautifulSoup `.text`). -/
def Node.allText : Node → String
  | .text s => s
  | .elem _ _ cs => allTextList cs

/-- The concatenation of `Node.allText` over sibling subtrees. -/
def allTextList : NodeList → String
  | .nil => ""
  | .cons c cs => c.allText ++ allTextList cs

end

mutual

/-- The raw text-node strings of a subtree, in document order. -/
def Node.textPieces : Node → List String
  | .text s => [s]
  | .elem _ _ cs => textPiecesList cs

/-- The concatenation of `Node.textPieces` over sibling subtrees. -/
def textPiecesList : NodeList → List String
  | .nil => []
  | .cons c cs => c.textPieces ++ textPiecesList cs

end

/-- BeautifulSoup `get_text(" ", strip=True)`: strip every text piece, drop
the empty ones, join with a single space. -/
def getTextSep (n : Node) : String :=
  String.intercalate " " ((n.textPieces.map strTrim).filter (fun s => !(s == "")))

/-- The descendants of a node with ancestor context (the node itself
excluded), in document order. -/
def selEntries (n : Node) : List (Node × List Node) :=
  match n with
  | .elem _ _ cs => childEntries cs []
  | .text _ => []

/-- The descendants of a node (itself excluded) in document order. -/
def descend (n : Node) : List Node :=
  (selEntries n).map Prod.fst

/-- BeautifulSoup `find_all(...)` with a node predicate. -/
def findAllP (p : Node → Bool) (n : Node) : List Node :=
  (descend n).filter p

/-- BeautifulSoup `find(...)` with a node predicate. -/
def findP (p : Node → Bool) (n : Node) : Option Node :=
  (findAllP p n).head?

/-- A simple CSS selector: a class test or a tag-name test. -/
inductive Sel where
  | cls (c : String)
  | tagSel (t : String)

/-- Whether a node matches a simple selector. -/
def matchesSel (s : Sel) (n : Node) : Bool :=
  match s with
  | .cls c => n.classList.contains c
  | .tagSel t => n.isTag t

/-- Whether an ancestor list (nearest first) contains a chain of nodes
matching the given selectors, innermost selector first. -/
def ancChainOk : List Sel → List Node → Bool
  | [], _ => true
  | _ :: _, [] => false
  | s :: rest, a :: as => (matchesSel s a && ancChainOk rest as) || ancChainOk (s :: rest) as

/-- Whether a node with the given ancestor list matches a descendant-combinator
selector chain (outermost selector first). -/
def selMatches (chain : List Sel) (n : Node) (anc : List Node) : Bool :=
  match chain.reverse with
  | [] => false
  | s :: rest => matchesSel s n && ancChainOk rest anc

/-- CSS `select` on a node: all matching descendants in document order. -/
def selectAll (n : Node) (chain : List Sel) : List Node :=
  (selEntries n).filterMap (fun e => if selMatches chain e.1 e.2 then some e.1 else none)

/-- CSS `select_one` on a node. -/
def selectOne (n : Node) (chain : List Sel) : Option Node :=
  (selectAll n chain).head?

/-! ### HTML endpoint responses -/

/-- A `requests` response to an HTML endpoint: status code, raw body text and
the BeautifulSoup parse of that text (`doc` is the parsed form of `text`). -/
structure PageResponse where
  status : Nat
  text : String
  doc : Node

/-- The `response.raise_for_status()` call raises exactly for statuses in [400, 600). -/
def raisesForStatus (status : Nat) : Bool :=
  decide (400 ≤ status ∧ status < 600)

/-- The no-results marker checked by `search_location`. -/
def noResultsBanner : String := "Sorry, we found no results for"

/-- The page banner checked by `get_events` (the literal from the source,
with its mojibake apostrophe sequence). -/
def eventsBanner : String :=
  "All upcoming concerts from the artists youâ€™re tracking."

/-! ### search_location -/

/-- The `li` items selected by `soup.find_all("li", class_="small-city")`. -/
def isSmallCityLi (n : Node) : Bool :=
  n.isTag "li" && classFilter "small-city" n

/-- The `find("a", class_="search-link")` predicate. -/
def isSearchLinkA (n : Node) : Bool :=
  n.isTag "a" && classFilter "search-link" n

/-- The `find("p", class_="summary")` predicate. -/
def isSummaryP (n : Node) : Bool :=
  n.isTag "p" && classFilter "summary" n

/-- The `find("form", {"data-analytics-category": "track_metro_area_button"})`. -/
def isTrackForm (n : Node) : Bool :=
  n.isTag "form" && (n.attrOf "data-analytics-category" == some "track_metro_area_button")

/-- The `find("input", {"name": nm})` predicate. -/
def isInputNamed (nm : String) (n : Node) : Bool :=
  n.isTag "input" && (n.attrOf "name" == some nm)

/-- Converts an optional value into the exception raised by the code when the
value is absent. -/
def need (e : PyErr) : Option α → Except PyErr α
  | some a => .ok a
  | none => .error e

/-- The `track_form.find("input", {"name": nm})["value"]`: `TypeError` when the
input is absent (subscripting `None`), `KeyError` when it has no value. -/
def inputValue (tf : Node) (nm : String) : Except PyErr String := do
  let inp ← need .typeError (findP (isInputNamed nm) tf)
  need .keyError (inp.attrOf "value")

/-- The five tracking-form fields of a location row: all `None` when the form
is absent, otherwise read from the form (raising on missing inputs). -/
def trackFormFields (li : Node) : Except PyErr (Json × Json × Json × Json × Json) :=
  match findP isTrackForm li with
  | none => .ok (.null, .null, .null, .null, .null)
  | some tf => do
    let action ← need .keyError (tf.attrOf "action")
    let tok ← inputValue tf "authenticity_token"
    let rel ← inputValue tf "relationship_type"
    let st ← inputValue tf "subject_type"
    let su ← inputValue tf "success_url"
    .ok (.str ("https://www.songkick.com" ++ action), .str tok, .str rel, .str st, .str su)

/-- The loop body of `search_location` for one `small-city` list item, in the
evaluation (and hence exception) order of the source. -/
def processLocationItem (li : Node) : Except PyErr Json := do
  let link := findP isSearchLinkA li
  let summary ← need .attributeError (findP isSummaryP li)
  let summary_link ← need .attributeError (findP isSearchLinkA summary)
  let name := strTrim summary_link.allText
  let linkNode ← need .typeError link
  let metro_id ← need .keyError (linkNode.attrOf "data-id")
  let href ← need .keyError (linkNode.attrOf "href")
  let url := "https://www.songkick.com" ++ href
  let (track_url, tok, rel, st, su) ← trackFormFields li
  .ok (Json.obj
    [("name", .str name), ("subject_id", .str metro_id), ("url", .str url),
     ("track_url", track_url), ("authenticity_token", tok),
     ("relationship_type", rel), ("subject_type", st), ("success_url", su)])

/-- The `SongkickIntegration.search_location`, applied to the fetched response.
The source returns from inside the first loop iteration, so only the head of
the `small-city` list is ever processed; falling through an empty loop yields
the implicit Python `None`, modelled as `Except.ok none`. -/
def search_location (resp : PageResponse) (location_name : String) :
    Except PyErr (Option Json) :=
  if raisesForStatus resp.status then .error (.httpError resp.status)
  else if strContains resp.text noResultsBanner then
    .error (.httpException 404 ("No results found for " ++ location_name))
  else
    match findAllP isSmallCityLi resp.doc with
    | [] => .ok none
    | li :: _ =>
      match processLocationItem li with
      | .error e => .error e
      | .ok item => .ok (some (Json.obj [("locations", Json.arr [item])]))

/-! ### track_untrack_location -/

/-- models/models.py TrackUntrackLocationRequest. -/
structure TrackUntrackLocationRequest where
  authenticity_token : String
  relationship_type : String
  subject_id : String
  subject_type : String
  success_url : String
  untrack : Bool := false

/-- The URL targeted by `track_untrack_location`. -/
def tuUrl (req : TrackUntrackLocationRequest) : String :=
  if req.untrack then "https://www.songkick.com/trackings/untrack"
  else "https://www.songkick.com/trackings"

/-- The form body posted by `track_untrack_location`. -/
def tuForm (req : TrackUntrackLocationRequest) : List (String × String) :=
  [("utf8", "%E2%9C%93"),
   ("authenticity_token", req.authenticity_token),
   ("relationship_type", req.relationship_type),
   ("subject_id", req.subject_id),
   ("subject_type", req.subject_type),
   ("success_url", req.success_url)]

/-- A `requests` response to the trackings POST: status code, raw body text,
and the outcome of `response.json()` on that text (`some j` when `text`
decodes to `j`, `none` when decoding raises). -/
structure PostResponse where
  status : Nat
  body : String
  jsonOutcome : Option Json

/-- The record `{"status": "failed"}`. -/
def failedRecord : Json := Json.obj [("status", Json.str "failed")]

/-- The record `{"status": "ok"}`. -/
def okRecord : Json := Json.obj [("status", Json.str "ok")]

/-- The substring probed in the trackings response text. -/
def okSubstr : String := "\"status\":\"ok\""

/-- The `try` block of `track_untrack_location`: `raise_for_status` plus the
branch chain; every exception inside it is caught and turned into
`{"status": "failed"}`. -/
def handleTrackResponse (resp : PostResponse) : Except PyErr Json :=
  if raisesForStatus resp.status then .ok failedRecord
  else if resp.status == 200 && !(strContains resp.body okSubstr) then .ok okRecord
  else if !(resp.status == 200) then .ok failedRecord
  else
    match resp.jsonOutcome with
    | some j => .ok j
    | none => .ok failedRecord

/-- The `SongkickIntegration.track_untrack_location`.  `net` is the
`session.post` transport, taking the URL and form and producing either a
response or a raised exception.  The POST itself sits outside the `try`
block in the source, so its exception propagates unchanged. -/
def track_untrack_location (req : TrackUntrackLocationRequest)
    (net : String → List (String × String) → Except PyErr PostResponse) :
    Except PyErr Json :=
  match net (tuUrl req) (tuForm req) with
  | .error e => .error e
  | .ok resp => handleTrackResponse resp

/-! ### get_events -/

/-- The `soup.find_all("li", {"title": True})`: list items carrying a title. -/
def isTitledLi (n : Node) : Bool :=
  n.isTag "li" && (n.attrOf "title").isSome

/-- The `find("p", class_="artists summary")` (exact multi-word class match). -/
def isArtistsSummaryP (n : Node) : Bool :=
  n.isTag "p" && classFilter "artists summary" n

/-- The `find("p", class_="location")` predicate. -/
def isLocationP (n : Node) : Bool :=
  n.isTag "p" && classFilter "location" n

/-- The `find("span", class_="venue-name")` predicate. -/
def isVenueNameSpan (n : Node) : Bool :=
  n.isTag "span" && classFilter "venue-name" n

/-- The `find("span", class_="street-address")` predicate. -/
def isStreetAddressSpan (n : Node) : Bool :=
  n.isTag "span" && classFilter "street-address" n

/-- The `find("a", class_="button buy-tickets")` (exact multi-word class match). -/
def isBuyTicketsA (n : Node) : Bool :=
  n.isTag "a" && classFilter "button buy-tickets" n

/-- Python truthiness-guarded URL rewrite
`f"prefix{u}" if u else None` (an empty string is falsy). -/
def rewriteUrl (pre : String) (u : Option String) : Json :=
  match u with
  | some s => if s == "" then .null else .str (pre ++ s)
  | none => .null

/-- The loop body of `get_events` for one titled list item, in the evaluation
(and hence exception) order of the source. -/
def processEvent (event : Node) : Except PyErr Json := do
  let date_time : Json ← (match findP (fun n => n.isTag "time") event with
    | some t => (need .keyError (t.attrOf "datetime")).map Json.str
    | none => pure .null)
  let artist : Json ← (match findP isArtistsSummaryP event with
    | some tag =>
      (match findP (fun n => n.isTag "strong") tag with
       | some st => pure (Json.str st.allText)
       | none => .error .attributeError)
    | none => pure .null)
  let venue_tag := findP isLocationP event
  let venue : Json ← (match venue_tag with
    | some vt =>
      (match findP isVenueNameSpan vt with
       | some s => pure (Json.str (strTrim s.allText))
       | none => .error .attributeError)
    | none => pure .null)
  let city_state : Json ← (match venue_tag with
    | some vt =>
      (match findAllP (fun n => n.isTag "span") vt with
       | _ :: s1 :: _ => pure (Json.str (strTrim s1.allText))
       | _ => .error .indexError)
    | none => pure .null)
  let street_address : Json :=
    match venue_tag.bind (findP isStreetAddressSpan) with
    | some s => Json.str (strTrim s.allText)
    | none => .null
  let event_url : Option String ← (match findP (fun n => n.isTag "a") event with
    | some a => (need .keyError (a.attrOf "href")).map some
    | none => pure none)
  let image_url : Option String ← (match findP (fun n => n.isTag "img") event with
    | some i => (need .keyError (i.attrOf "src")).map some
    | none => pure none)
  let ticket_url : Option String ← (match findP isBuyTicketsA event with
    | some a => (need .keyError (a.attrOf "href")).map some
    | none => pure none)
  .ok (Json.obj
    [("date_time", date_time), ("artist", artist), ("venue", venue),
     ("location", city_state), ("street_address", street_address),
     ("event_url", rewriteUrl "https://www.songkick.com" event_url),
     ("image_url", rewriteUrl "https:" image_url),
     ("ticket_url", rewriteUrl "https://www.songkick.com" ticket_url)])

/-- The parsing half of `get_events`: every titled list item becomes one
event record. -/
def parseEvents (doc : Node) : Except PyErr Json :=
  match (findAllP isTitledLi doc).mapM processEvent with
  | .error e => .error e
  | .ok evs => .ok (Json.obj [("events", Json.arr evs)])

/-- The `SongkickIntegration.get_events`, applied to the fetched response.
`raise_for_status` runs before the status/banner check of the source. -/
def get_events (resp : PageResponse) : Except PyErr Json :=
  if raisesForStatus resp.status then .error (.httpError resp.status)
  else if !(resp.status == 200) && !(strContains resp.text eventsBanner) then
    .error (.httpException resp.status "Failed to fetch concert events")
  else parseEvents resp.doc

/-! ### get_event_details -/

/-- The `details_text.split(label)[1]`: `IndexError` when the label (with its
trailing space) does not occur in the text. -/
def sliceAfter (dt label : String) : Except PyErr String :=
  match strSplitOn dt label with
  | _ :: x :: _ => .ok x
  | _ => .error .indexError

/-- The price entry of the additional-details dict: set only when "Price:"
occurs in the text, by slicing after "Price: " (with space) and taking the
first space-separated token. -/
def priceField (dt : String) : Except PyErr Json :=
  if strContains dt "Price:" then
    match sliceAfter dt "Price: " with
    | .ok s => .ok (Json.str ((strSplitOn s " ").headD ""))
    | .error e => .error e
  else .ok Json.null

/-- The doors-open entry of the additional-details dict: set only when
"Doors open:" occurs in the text, by slicing after "Doors open: ". -/
def doorsField (dt : String) : Except PyErr Json :=
  if strContains dt "Doors open:" then
    match sliceAfter dt "Doors open: " with
    | .ok s => .ok (Json.str s)
    | .error e => .error e
  else .ok Json.null

/-- The additional-details dict built from the container text, price first
(as in the source, so a price `IndexError` fires before the doors slice). -/
def adFromText (dt : String) : Except PyErr Json :=
  match priceField dt with
  | .error e => .error e
  | .ok p =>
    match doorsField dt with
    | .error e => .error e
    | .ok d => .ok (Json.obj [("price", p), ("doors_open", d)])

/-- The additional-details block: probes for the container, then slices the
text after the labels.  The slicing is the only raise site of the
event-detail extractor. -/
def additionalDetails (doc : Node) : Except PyErr Json :=
  match selectOne doc [Sel.cls "additional-details-container"] with
  | none => .ok (Json.obj [("price", Json.null), ("doors_open", Json.null)])
  | some c => adFromText (getTextSep c)

/-- The `soup.select_one(...).text.strip()` guarded by presence, as a field. -/
def textOfSel (doc : Node) (chain : List Sel) : Json :=
  match selectOne doc chain with
  | some n => Json.str (strTrim n.allText)
  | none => Json.null

/-- The combined location string: present only when both selector targets
resolve. -/
def detailLocation (doc : Node) : Json :=
  match selectOne doc [Sel.cls "location", Sel.cls "name", Sel.tagSel "a"],
        selectOne doc [Sel.cls "location", Sel.tagSel "span", Sel.tagSel "a"] with
  | some n1, some n2 => Json.str (strTrim n1.allText ++ ", " ++ strTrim n2.allText)
  | _, _ => Json.null

/-- The `soup.select_one(".profile-picture-wrapper img").get("src")`, guarded by
presence of the element; `.get` never raises. -/
def detailImage (doc : Node) : Option String :=
  (selectOne doc [Sel.cls "profile-picture-wrapper", Sel.tagSel "img"]).bind
    (fun n => n.attrOf "src")

/-- The final image field: swap the size token and prefix `https:` when the
probed source is truthy, else `None`. -/
def imageField : Option String → Json
  | some s => if s == "" then .null
      else .str ("https:" ++ strReplace s "medium_avatar" "huge_avatar")
  | none => .null

/-- The ticket options: vendor defaults to "Unknown Vendor"; the link is the
f-string over `ticket.get("href")`, which renders a missing href as the
Python string "None". -/
def detailTickets (doc : Node) : List Json :=
  (selectAll doc [Sel.cls "buy-ticket-link"]).map (fun t =>
    let vendor := match selectOne t [Sel.cls "vendor"] with
      | some v => strTrim v.allText
      | none => "Unknown Vendor"
    let link := match t.attrOf "href" with
      | some s => s
      | none => "None"
    Json.obj [("vendor", Json.str vendor),
              ("link", Json.str ("https://www.songkick.com" ++ link))])

/-- The parsing half of `get_event_details`.  Every probe other than the
additional-details slicing is presence-guarded in the source, so the only
possible exception is the `IndexError` of `additionalDetails`. -/
def parseEventDetails (doc : Node) : Except PyErr Json :=
  match additionalDetails doc with
  | .error e => .error e
  | .ok ad =>
    .ok (Json.obj [("event_details", Json.obj
      [("event_date_time", textOfSel doc [Sel.cls "date-and-name", Sel.tagSel "p"]),
       ("name", textOfSel doc [Sel.cls "summary", Sel.tagSel "a"]),
       ("location", detailLocation doc),
       ("image_url", imageField (detailImage doc)),
       ("ticketing_information", Json.arr (detailTickets doc)),
       ("venue_information", Json.obj
         [("name", textOfSel doc [Sel.cls "venue-info-details", Sel.tagSel "a"]),
          ("address", textOfSel doc [Sel.cls "venue-hcard", Sel.tagSel "span"])]),
       ("additional_details", ad)])])

/-- The `SongkickIntegration.get_event_details`, applied to the fetched response. -/
def get_event_details (resp : PageResponse) : Except PyErr Json :=
  if raisesForStatus resp.status then .error (.httpError resp.status)
  else parseEventDetails resp.doc

/-- Field lookup inside the `event_details` wrapper of the returned record. -/
def detailField (r : Json) (k : String) : Option Json :=
  (jsonLookup r "event_details").bind (fun inner => jsonLookup inner k)

/-! ### Supporting lemmas and concrete documents for the claims -/

/-- Whether a parsed body is shaped so that the message/code extraction of the
classifier cannot raise: absent, or an object whose error member (when
present) is itself an object. -/
def errShapeOk : Option Json → Bool
  | none => true
  | some (Json.obj fs) =>
    match (fs.find? (fun p => p.1 == "error")).map Prod.snd with
    | none => true
    | some (Json.obj _) => true
    | some _ => false
  | some _ => false

/-- The error message the classifier extracts from a (shape-correct) body. -/
def extMsg : Option Json → Json
  | none => Json.str "Unknown error"
  | some j =>
    match jsonLookup j "error" with
    | none => Json.str "Unknown error"
    | some e => (jsonLookup e "message").getD (Json.str "Unknown error")

lemma classifyStatus_cases (name : String) (status : Nat) (msg code : Json) :
    (∃ m c, classifyStatus name status msg code = .error (.authError m status c)) ∨
    (∃ n2 m s c, classifyStatus name status msg code = .error (.apiError n2 m s c)) := by
  unfold classifyStatus
  split
  · exact Or.inl ⟨_, _, by rename_i h; rw [h]⟩
  · split
    · split
      · exact Or.inr ⟨_, _, _, _, rfl⟩
      · exact Or.inr ⟨_, _, _, _, rfl⟩
    · split
      · exact Or.inr ⟨_, _, _, _, rfl⟩
      · exact Or.inr ⟨_, _, _, _, rfl⟩

lemma handleResponse_shaped (name : String) (status : Nat) (body : Option Json)
    (hb : errShapeOk body = true) (h2 : ¬(200 ≤ status ∧ status < 204)) :
    ∃ c, handleResponse name status body = classifyStatus name status (extMsg body) c := by
  cases body with
  | none =>
    refine ⟨Json.str (toString status), ?_⟩
    unfold handleResponse
    rw [if_neg h2]
    rfl
  | some j =>
    cases j with
    | obj fs =>
      rcases hf : fs.find? (fun p => p.1 == "error") with _ | p
      · refine ⟨Json.str (toString status), ?_⟩
        unfold handleResponse
        rw [if_neg h2]
        simp [pyBody, jget, extMsg, jsonLookup, hf]
      · have hobj : ∃ gs, p.2 = Json.obj gs := by
          simp only [errShapeOk, hf] at hb
          cases hp2 : p.2 with
          | obj gs => exact ⟨gs, rfl⟩
          | null => simp [hp2] at hb
          | bool b => simp [hp2] at hb
          | num n => simp [hp2] at hb
          | str s => simp [hp2] at hb
          | arr xs => simp [hp2] at hb
        obtain ⟨gs, hgs⟩ := hobj
        refine ⟨((gs.find? (fun q => q.1 == "code")).map Prod.snd).getD
          (Json.str (toString status)), ?_⟩
        unfold handleResponse
        rw [if_neg h2]
        simp [pyBody, jget, extMsg, jsonLookup, hf, hgs]
    | null => simp [errShapeOk] at hb
    | bool b => simp [errShapeOk] at hb
    | num n => simp [errShapeOk] at hb
    | str s => simp [errShapeOk] at hb
    | arr xs => simp [errShapeOk] at hb

lemma sliceAfter_error (dt label : String) (e : PyErr)
    (h : sliceAfter dt label = .error e) : e = .indexError := by
  unfold sliceAfter at h
  split at h
  · exact Except.noConfusion h
  · injection h with h1
    exact h1.symm

lemma priceField_error (dt : String) (e : PyErr)
    (h : priceField dt = .error e) : e = .indexError := by
  unfold priceField at h
  split at h
  · split at h
    · exact Except.noConfusion h
    · rename_i e2 heq
      injection h with h1
      exact h1 ▸ sliceAfter_error dt "Price: " e2 heq
  · exact Except.noConfusion h

lemma doorsField_error (dt : String) (e : PyErr)
    (h : doorsField dt = .error e) : e = .indexError := by
  unfold doorsField at h
  split at h
  · split at h
    · exact Except.noConfusion h
    · rename_i e2 heq
      injection h with h1
      exact h1 ▸ sliceAfter_error dt "Doors open: " e2 heq
  · exact Except.noConfusion h

lemma adFromText_error (dt : String) (e : PyErr)
    (h : adFromText dt = .error e) : e = .indexError := by
  unfold adFromText at h
  split at h
  · rename_i e2 heq
    injection h with h1
    exact h1 ▸ priceField_error dt e2 heq
  · split at h
    · rename_i e2 heq
      injection h with h1
      exact h1 ▸ doorsField_error dt e2 heq
    · exact Except.noConfusion h

lemma additionalDetails_error (doc : Node) (e : PyErr)
    (h : additionalDetails doc = .error e) : e = .indexError := by
  unfold additionalDetails at h
  split at h
  · exact Except.noConfusion h
  · rename_i c heq
    exact adFromText_error (getTextSep c) e h

/-! ### Concrete artifacts used by witnesses and counterexamples -/

/-- An empty parsed document. -/
def emptyDoc : Node := .elem "[document]" [] .nil

/-- A concrete track/untrack request. -/
def trackReq : TrackUntrackLocationRequest :=
  ⟨"tok", "artist", "12", "MetroArea", "https://www.songkick.com", false⟩

/-- A document whose only content is a bare `small-city` list item with no
nested link or summary. -/
def bareSmallCityDoc : Node :=
  .elem "[document]" [] (nlist [.elem "li" [("class", "small-city")] .nil])

/-! ### The claims -/

/-- C1, counterexample: an exception raised by the HTTP POST itself (which
sits outside the `try` block) propagates out of `track_untrack_location`
instead of resolving to the record with status "failed". -/
theorem claim_C1_counterexample :
    track_untrack_location trackReq (fun _ _ => .error .networkError) =
      .error .networkError ∧
    ∀ j, track_untrack_location trackReq (fun _ _ => .error .networkError) ≠ .ok j :=
  ⟨rfl, fun _ h => Except.noConfusion h⟩

/-- C1, amended: once the POST has returned a response, every exception inside
the `try` block (raise_for_status, status branching, JSON decoding) is
absorbed, and the operation resolves to some record; only an exception from
the POST call itself propagates. -/
theorem claim_C1 : ∀ (req : TrackUntrackLocationRequest)
    (net : String → List (String × String) → Except PyErr PostResponse)
    (resp : PostResponse), net (tuUrl req) (tuForm req) = .ok resp →
    ∃ j, track_untrack_location req net = .ok j := by
  intro req net resp h
  have htr : track_untrack_location req net = handleTrackResponse resp := by
    unfold track_untrack_location
    rw [h]
  rw [htr]
  obtain ⟨st, bd, jo⟩ := resp
  unfold handleTrackResponse
  split
  · exact ⟨_, rfl⟩
  · split
    · exact ⟨_, rfl⟩
    · split
      · exact ⟨_, rfl⟩
      · cases jo
        · exact ⟨_, rfl⟩
        · exact ⟨_, rfl⟩

/-- C1, witness: a successful POST leads to a returned record. -/
theorem claim_C1_witness :
    ∃ j, track_untrack_location trackReq (fun _ _ => .ok ⟨200, "", none⟩) = .ok j :=
  claim_C1 trackReq (fun _ _ => .ok ⟨200, "", none⟩) ⟨200, "", none⟩ rfl

/-- C9, counterexample: a 200 response whose text contains the probed
substring but does not decode as JSON returns the failed record, so the
operation does not return a decoded JSON body in every substring-containing
200 case. -/
theorem claim_C9_counterexample :
    track_untrack_location trackReq
      (fun _ _ => .ok ⟨200, "ab\"status\":\"ok\"", none⟩) = .ok failedRecord ∧
    strContains "ab\"status\":\"ok\"" okSubstr = true ∧
    failedRecord ≠ okRecord ∧
    ∀ j : Json, (⟨200, "ab\"status\":\"ok\"", none⟩ : PostResponse).jsonOutcome ≠ some j := by
  refine ⟨rfl, rfl, ?_, fun j h => Option.noConfusion h⟩
  simp [failedRecord, okRecord]

/-- C9, amended: for a response passing raise_for_status, a 200 status
without the substring yields the ok record; a 200 status with the substring
yields the decoded JSON body when decoding succeeds and the failed record
when it fails; any other status yields the failed record. -/
theorem claim_C9 : ∀ (req : TrackUntrackLocationRequest)
    (net : String → List (String × String) → Except PyErr PostResponse)
    (resp : PostResponse),
    net (tuUrl req) (tuForm req) = .ok resp →
    raisesForStatus resp.status = false →
    ((resp.status = 200 ∧ strContains resp.body okSubstr = false) →
        track_untrack_location req net = .ok okRecord) ∧
    ((resp.status = 200 ∧ strContains resp.body okSubstr = true) →
        (∀ j, resp.jsonOutcome = some j → track_untrack_location req net = .ok j) ∧
        (resp.jsonOutcome = none → track_untrack_location req net = .ok failedRecord)) ∧
    (resp.status ≠ 200 → track_untrack_location req net = .ok failedRecord) := by
  intro req net resp hnet hrs
  have htr : track_untrack_location req net = handleTrackResponse resp := by
    unfold track_untrack_location
    rw [hnet]
  obtain ⟨st, bd, jo⟩ := resp
  refine ⟨?_, ?_, ?_⟩
  · rintro ⟨h200, hsub⟩
    rw [htr]
    unfold handleTrackResponse
    simp only at h200 hsub
    subst h200
    simp [hrs, hsub]
  · rintro ⟨h200, hsub⟩
    simp only at h200 hsub
    subst h200
    constructor
    · intro j hj
      simp only at hj
      rw [htr]
      unfold handleTrackResponse
      simp [hrs, hsub, hj]
    · intro hj
      simp only at hj
      rw [htr]
      unfold handleTrackResponse
      simp [hrs, hsub, hj]
  · intro hne
    simp only at hne
    rw [htr]
    unfold handleTrackResponse
    simp [hrs, hne]

/-- C9, witness: a 201 response (passing raise_for_status) returns the
failed record. -/
theorem claim_C9_witness :
    track_untrack_location trackReq (fun _ _ => .ok ⟨201, "", none⟩) = .ok failedRecord :=
  (claim_C9 trackReq (fun _ _ => .ok ⟨201, "", none⟩) ⟨201, "", none⟩ rfl rfl).2.2
    (by decide)

/-- C2, counterexample: a 401 status with a JSON-array body raises
`AttributeError` inside the classifier, not `AuthError`. -/
theorem claim_C2_counterexample :
    handleResponse "songkick" 401 (some (Json.arr [])) = .error .attributeError ∧
    ∀ m s c, handleResponse "songkick" 401 (some (Json.arr [])) ≠
      .error (.authError m s c) := by
  refine ⟨rfl, fun m s c h => ?_⟩
  injection h with h1
  exact PyErr.noConfusion h1

/-- C2, amended: for bodies whose parsed form is absent or an object whose
error member (when present) is an object, the classifier behaves as claimed:
401 raises AuthError with the extracted message; 400 with message
"Resource not found." raises APIError with that message and status 400;
500 raises APIError with reported status forced to 501; a 2xx status below
204 returns the parsed body unchanged. -/
theorem claim_C2 : ∀ (name : String) (status : Nat) (body : Option Json),
    errShapeOk body = true →
    (status = 401 → ∃ c, handleResponse name status body =
      .error (.authError (name ++ ": " ++ pyStr (extMsg body)) 401 c)) ∧
    (status = 400 → extMsg body = Json.str "Resource not found." →
      ∃ c, handleResponse name status body =
        .error (.apiError name "Resource not found." 400 c)) ∧
    (status = 500 → ∃ c, handleResponse name status body =
      .error (.apiError name ("Downstream server error (translated to HTTP 501): " ++
        pyStr (extMsg body)) 501 c)) ∧
    (200 ≤ status ∧ status < 204 → ∀ j, body = some j →
      handleResponse name status body = .ok j) := by
  intro name status body hb
  refine ⟨?_, ?_, ?_, ?_⟩
  · rintro rfl
    obtain ⟨c, hc⟩ := handleResponse_shaped name 401 body hb (by omega)
    exact ⟨c, by rw [hc]; rfl⟩
  · rintro rfl hmsg
    obtain ⟨c, hc⟩ := handleResponse_shaped name 400 body hb (by omega)
    refine ⟨c, ?_⟩
    rw [hc, hmsg]
    rfl
  · rintro rfl
    obtain ⟨c, hc⟩ := handleResponse_shaped name 500 body hb (by omega)
    exact ⟨c, by rw [hc]; rfl⟩
  · rintro ⟨hl, hr⟩ j rfl
    unfold handleResponse
    rw [if_pos ⟨hl, hr⟩]
    rfl

/-- C2, witness: a 401 with undecodable body raises AuthError carrying the
synthesized message. -/
theorem claim_C2_witness :
    ∃ c, handleResponse "songkick" 401 none =
      .error (.authError "songkick: Unknown error" 401 c) :=
  (claim_C2 "songkick" 401 none rfl).1 rfl

/-- C5, counterexample: a 500 status with a JSON-array body makes the
classifier raise `AttributeError`, which is neither a returned payload nor
one of the two typed errors, so the classifier is not total on non-object
JSON bodies. -/
theorem claim_C5_counterexample :
    handleResponse "songkick" 500 (some (Json.arr [Json.num 1])) =
      .error .attributeError ∧
    (∀ j, handleResponse "songkick" 500 (some (Json.arr [Json.num 1])) ≠ .ok j) ∧
    (∀ m s c, handleResponse "songkick" 500 (some (Json.arr [Json.num 1])) ≠
      .error (.authError m s c)) ∧
    (∀ n2 m s c, handleResponse "songkick" 500 (some (Json.arr [Json.num 1])) ≠
      .error (.apiError n2 m s c)) := by
  refine ⟨rfl, fun j h => Except.noConfusion h, fun m s c h => ?_, fun n2 m s c h => ?_⟩
  · injection h with h1
    exact PyErr.noConfusion h1
  · injection h with h1
    exact PyErr.noConfusion h1

/-- C5, amended: an undecodable body behaves exactly as the synthesized
error record, and for bodies whose parsed form is absent or an object with
an object (or absent) error member, the classifier totally resolves to a
payload or one of the two typed errors. -/
theorem claim_C5 : ∀ (name : String) (status : Nat) (body : Option Json),
    handleResponse name status none =
      handleResponse name status (some (synthBody status)) ∧
    (errShapeOk body = true →
      (∃ j, handleResponse name status body = .ok j) ∨
      (∃ m s c, handleResponse name status body = .error (.authError m s c)) ∨
      (∃ n2 m s c, handleResponse name status body = .error (.apiError n2 m s c))) := by
  intro name status body
  refine ⟨rfl, fun hb => ?_⟩
  by_cases h2 : 200 ≤ status ∧ status < 204
  · exact Or.inl ⟨pyBody status body, by unfold handleResponse; rw [if_pos h2]⟩
  · obtain ⟨c, hc⟩ := handleResponse_shaped name status body hb h2
    rcases classifyStatus_cases name status (extMsg body) c with ⟨m, c2, h⟩ | ⟨n2, m, s, c2, h⟩
    · exact Or.inr (Or.inl ⟨m, status, c2, by rw [hc, h]⟩)
    · exact Or.inr (Or.inr ⟨n2, m, s, c2, by rw [hc, h]⟩)

/-- C5, witness: a 418 with an empty-object body resolves to a typed error. -/
theorem claim_C5_witness :
    (∃ j, handleResponse "songkick" 418 (some (Json.obj [])) = .ok j) ∨
    (∃ m s c, handleResponse "songkick" 418 (some (Json.obj [])) =
      .error (.authError m s c)) ∨
    (∃ n2 m s c, handleResponse "songkick" 418 (some (Json.obj [])) =
      .error (.apiError n2 m s c)) :=
  (claim_C5 "songkick" 418 (some (Json.obj []))).2 rfl

/-- C3, counterexample: a 404 tracked-events response whose body contains the
banner string raises the raise_for_status error before the banner check, so
the banner does not make the operation proceed to parse on that non-200
status. -/
theorem claim_C3_counterexample :
    get_events ⟨404, eventsBanner, emptyDoc⟩ = .error (.httpError 404) ∧
    strContains eventsBanner eventsBanner = true ∧
    parseEvents emptyDoc = .ok (Json.obj [("events", Json.arr [])]) ∧
    get_events ⟨404, eventsBanner, emptyDoc⟩ ≠ parseEvents emptyDoc :=
  ⟨rfl, rfl, rfl, fun h => Except.noConfusion h⟩

/-- C3, amended: statuses in [400, 600) always fail via raise_for_status at
the original status, banner or not; for the remaining statuses the operation
fails with the failed-fetch error at the original status exactly when the
status is not 200 and the banner is absent, and proceeds to parse when the
status is 200 or the banner is present. -/
theorem claim_C3 : ∀ resp : PageResponse,
    (raisesForStatus resp.status = true →
      get_events resp = .error (.httpError resp.status)) ∧
    (raisesForStatus resp.status = false → resp.status ≠ 200 →
      strContains resp.text eventsBanner = false →
      get_events resp = .error (.httpException resp.status
        "Failed to fetch concert events")) ∧
    (raisesForStatus resp.status = false →
      (resp.status = 200 ∨ strContains resp.text eventsBanner = true) →
      get_events resp = parseEvents resp.doc) := by
  intro resp
  obtain ⟨st, tx, doc⟩ := resp
  refine ⟨fun h => ?_, fun h hne hb => ?_, fun h hok => ?_⟩
  · unfold get_events
    simp only at h
    simp [h]
  · unfold get_events
    simp only at h hne hb
    simp [h, hne, hb]
  · unfold get_events
    simp only at h hok
    rcases hok with h200 | hban
    · subst h200
      simp [h]
    · simp [h, hban]

/-- C3, witness: a 200 response parses. -/
theorem claim_C3_witness : get_events ⟨200, "", emptyDoc⟩ = parseEvents emptyDoc :=
  (claim_C3 ⟨200, "", emptyDoc⟩).2.2 rfl (Or.inl rfl)

/-- C4, counterexample: the location extractor raises `AttributeError` on a
document containing a bare `small-city` item without the no-results banner,
so the extractors are not exception-free on missing page elements, and the
raised error is not one of the two banner signals. -/
theorem claim_C4_counterexample :
    strContains "" noResultsBanner = false ∧
    search_location ⟨200, "", bareSmallCityDoc⟩ "x" = .error .attributeError ∧
    ∀ s d, PyErr.attributeError ≠ PyErr.httpException s d :=
  ⟨rfl, rfl, fun _ _ h => PyErr.noConfusion h⟩

/-- C4, amended: the event-detail extractor never raises on account of a
missing page element: on every document it either returns a record or raises
the `IndexError` of the additional-details text slicing; the location and
tracked-events extractors, by contrast, can raise on items missing nested
mandatory elements. -/
theorem claim_C4 : ∀ doc : Node,
    (∃ j, parseEventDetails doc = .ok j) ∨
    parseEventDetails doc = .error .indexError := by
  intro doc
  cases h : additionalDetails doc with
  | ok ad =>
    exact Or.inl ⟨_, by unfold parseEventDetails; rw [h]⟩
  | error e =>
    right
    unfold parseEventDetails
    rw [h, additionalDetails_error doc e h]

/-- A full `small-city` search row (link, summary, no tracking form). -/
def cityRowOne : Node := .elem "li" [("class", "small-city")] (nlist
  [.elem "a" [("class", "search-link"), ("data-id", "1"), ("href", "/metro-areas/1")]
    (nlist [.text "A"]),
   .elem "p" [("class", "summary")]
    (nlist [.elem "a" [("class", "search-link")] (nlist [.text "CityOne"])])])

/-- A second full `small-city` search row. -/
def cityRowTwo : Node := .elem "li" [("class", "small-city")] (nlist
  [.elem "a" [("class", "search-link"), ("data-id", "2"), ("href", "/metro-areas/2")]
    (nlist [.text "B"]),
   .elem "p" [("class", "summary")]
    (nlist [.elem "a" [("class", "search-link")] (nlist [.text "CityTwo"])])])

/-- A search page holding two result rows. -/
def twoCityDoc : Node := .elem "[document]" [] (nlist [cityRowOne, cityRowTwo])

/-- The record extracted from `cityRowOne`. -/
def cityRecordOne : Json := Json.obj
  [("name", .str "CityOne"), ("subject_id", .str "1"),
   ("url", .str "https://www.songkick.com/metro-areas/1"),
   ("track_url", .null), ("authenticity_token", .null),
   ("relationship_type", .null), ("subject_type", .null), ("success_url", .null)]

/-- C6: when the page has at least one `small-city` item and the first item
processes without exception, `search_location` returns from inside the first
loop iteration, so the locations list holds exactly that one record no
matter how many further items the page holds. -/
theorem claim_C6 : ∀ (resp : PageResponse) (nm : String) (li : Node)
    (rest : List Node) (item : Json),
    raisesForStatus resp.status = false →
    strContains resp.text noResultsBanner = false →
    findAllP isSmallCityLi resp.doc = li :: rest →
    processLocationItem li = .ok item →
    search_location resp nm = .ok (some (Json.obj [("locations", Json.arr [item])])) := by
  intro resp nm li rest item hrs hb hitems hitem
  obtain ⟨st, tx, doc⟩ := resp
  unfold search_location
  simp only at hrs hb hitems
  simp [hrs, hb, hitems, hitem]

/-- C6, witness: a two-row page yields a single-record locations list. -/
theorem claim_C6_witness :
    search_location ⟨200, "", twoCityDoc⟩ "q" =
      .ok (some (Json.obj [("locations", Json.arr [cityRecordOne])])) :=
  claim_C6 ⟨200, "", twoCityDoc⟩ "q" cityRowOne [cityRowTwo] cityRecordOne rfl rfl rfl rfl

/-- C7: when the response passes raise_for_status and its body contains the
no-results marker, `search_location` fails with the 404 not-found signal and
extracts nothing. -/
theorem claim_C7 : ∀ (resp : PageResponse) (nm : String),
    raisesForStatus resp.status = false →
    strContains resp.text noResultsBanner = true →
    search_location resp nm =
      .error (.httpException 404 ("No results found for " ++ nm)) := by
  intro resp nm hrs hb
  obtain ⟨st, tx, doc⟩ := resp
  unfold search_location
  simp only at hrs hb
  simp [hrs, hb]

/-- C7, witness: a banner-bearing page yields the 404 signal. -/
theorem claim_C7_witness :
    search_location ⟨200, "Sorry, we found no results for berlin", emptyDoc⟩ "berlin" =
      .error (.httpException 404 "No results found for berlin") :=
  claim_C7 ⟨200, "Sorry, we found no results for berlin", emptyDoc⟩ "berlin" rfl rfl

/-- C10: a page with neither the banner nor any `small-city` item makes
`search_location` fall through its loop and return the implicit Python None
instead of a locations record. -/
theorem claim_C10 : ∀ (resp : PageResponse) (nm : String),
    raisesForStatus resp.status = false →
    strContains resp.text noResultsBanner = false →
    findAllP isSmallCityLi resp.doc = [] →
    search_location resp nm = .ok none := by
  intro resp nm hrs hb hitems
  obtain ⟨st, tx, doc⟩ := resp
  unfold search_location
  simp only at hrs hb hitems
  simp [hrs, hb, hitems]

/-- C10, witness: an empty page yields None. -/
theorem claim_C10_witness : search_location ⟨200, "", emptyDoc⟩ "nowhere" = .ok none :=
  claim_C10 ⟨200, "", emptyDoc⟩ "nowhere" rfl rfl rfl

/-- An event page whose profile image has the medium-avatar source. -/
def profileImgDoc : Node := .elem "[document]" [] (nlist
  [.elem "div" [("class", "profile-picture-wrapper")] (nlist
    [.elem "img" [("src", "//example.com/medium_avatar/x.jpg")] .nil])])

/-- The record extracted from `profileImgDoc`. -/
def imgDetailsRecord : Json := Json.obj [("event_details", Json.obj
  [("event_date_time", .null), ("name", .null), ("location", .null),
   ("image_url", .str "https://example.com/huge_avatar/x.jpg"),
   ("ticketing_information", Json.arr []),
   ("venue_information", Json.obj [("name", .null), ("address", .null)]),
   ("additional_details", Json.obj [("price", .null), ("doors_open", .null)])])]

/-- C8: whenever `get_event_details` returns a record, a profile image source
of "//example.com/medium_avatar/x.jpg" produces the image_url
"https://example.com/huge_avatar/x.jpg" (token swapped, https prefixed), and
an absent image probe produces the null marker. -/
theorem claim_C8 : ∀ (doc : Node) (r : Json), parseEventDetails doc = .ok r →
    (detailImage doc = some "//example.com/medium_avatar/x.jpg" →
      detailField r "image_url" =
        some (Json.str "https://example.com/huge_avatar/x.jpg")) ∧
    (detailImage doc = none → detailField r "image_url" = some Json.null) := by
  intro doc r h
  unfold parseEventDetails at h
  cases had : additionalDetails doc with
  | error e =>
    rw [had] at h
    exact Except.noConfusion h
  | ok ad =>
    rw [had] at h
    injection h with h1
    subst h1
    constructor
    · intro himg
      show some (imageField (detailImage doc)) = _
      rw [himg]
      rfl
    · intro himg
      show some (imageField (detailImage doc)) = _
      rw [himg]
      rfl

/-- C8, witness: the concrete medium-avatar page yields the huge-avatar
image URL. -/
theorem claim_C8_witness :
    detailField imgDetailsRecord "image_url" =
      some (Json.str "https://example.com/huge_avatar/x.jpg") :=
  (claim_C8 profileImgDoc imgDetailsRecord rfl).1 rfl
